import Mathlib

/-!
Verification of the phased-UI core: the per-component phase lifecycle
state machine (src/phased/usePhase) and the orchestrator registry
(src/phased/OrchestratorContext), embedded shallowly from the TypeScript
source. Timers are modelled as explicit pending entries; firing a timer
is an explicit step.
-/

namespace PhasedUI

/-- The five lifecycle phases of a visual element (types.ts, type Phase). -/
inductive Phase where
  | dormant
  | warming
  | surfaced
  | focused
  | dissolving
deriving DecidableEq, Repr

/-- Named transition edges between phases (types.ts, type PhaseTransition). -/
inductive PhaseTransition where
  | surface
  | focus
  | blur
  | dissolve
  | hibernate
deriving DecidableEq, Repr

/-- Opacity derivation from phase (types.ts, getPhaseOpacity). -/
def getPhaseOpacity : Phase → ℚ
  | .dormant => 0
  | .warming => 3/10
  | .surfaced => 1
  | .focused => 1
  | .dissolving => 1/2

/-- Interactivity derivation (types.ts, isPhaseInteractive). -/
def isPhaseInteractive (p : Phase) : Bool :=
  p = .surfaced || p = .focused || p = .dissolving

/-- Visibility derivation (types.ts, isPhaseVisible). -/
def isPhaseVisible (p : Phase) : Bool :=
  p ≠ .dormant

/-- Animation duration enum (types.ts, PhaseAnimationConfig duration field);
the source key written here as verySlow is spelled very-slow in TypeScript. -/
inductive AnimationDuration where
  | fast
  | normal
  | slow
  | verySlow
deriving DecidableEq, Repr

/-- Millisecond budget per duration (usePhase.ts, PHASE_DURATION_MS). -/
def PHASE_DURATION_MS : AnimationDuration → Nat
  | .fast => 150
  | .normal => 300
  | .slow => 500
  | .verySlow => 800

/-- Relevance score computed in the usePhase hook state (usePhase.ts line 172:
focused gives 1, surfaced gives 0.8, anything else 0). -/
def phaseRelevance (p : Phase) : ℚ :=
  if p = .focused then 1 else if p = .surfaced then 8/10 else 0

/-- One component phase state machine as managed by the usePhase hook:
the current phase, the last named transition, and the pending scheduled
auto-advance (delay in ms, phase to set when the timer fires). A single
pending slot models transitionTimeoutRef (at most one scheduled
auto-advance; each transitionTo clears it first). -/
structure PhaseMachine where
  phase : Phase
  lastTransition : Option PhaseTransition
  pending : Option (Nat × Phase)
deriving DecidableEq, Repr

/-- transitionTo (usePhase.ts lines 118-160). Mirrors the if-else chain:
target surfaced from dormant or dissolving goes through warming and
schedules the surfaced hop at half duration; focus and blur are immediate;
target dissolving from anywhere is immediate; target dormant sets
dissolving and schedules dormant at full duration; any other pair is a
direct assignment with no named transition. The pending timer of the
previous call is always cleared first (clearTimeout at lines 120-122). -/
def transitionTo (d : Nat) (target : Phase) (m : PhaseMachine) : PhaseMachine :=
  match target, m.phase with
  | .surfaced, .dormant => ⟨.warming, some .surface, some (d / 2, .surfaced)⟩
  | .surfaced, .dissolving => ⟨.warming, some .surface, some (d / 2, .surfaced)⟩
  | .focused, .surfaced => ⟨.focused, some .focus, none⟩
  | .surfaced, .focused => ⟨.surfaced, some .blur, none⟩
  | .dissolving, _ => ⟨.dissolving, some .dissolve, none⟩
  | .dormant, _ => ⟨.dissolving, some .hibernate, some (d, .dormant)⟩
  | t, _ => ⟨t, m.lastTransition, none⟩

/-- Firing the pending scheduled auto-advance, if any: the timeout callback
only calls setPhase (usePhase.ts lines 134-136 and 153-155). -/
def settle (m : PhaseMachine) : PhaseMachine :=
  match m.pending with
  | none => m
  | some (_, p) => ⟨p, m.lastTransition, none⟩

/-- Wrapper surface() = transitionTo surfaced (usePhase.ts line 162). -/
def surfaceM (d : Nat) (m : PhaseMachine) : PhaseMachine := transitionTo d .surfaced m

/-- Wrapper dissolve() = transitionTo dissolving (usePhase.ts line 163). -/
def dissolveM (d : Nat) (m : PhaseMachine) : PhaseMachine := transitionTo d .dissolving m

/-- Wrapper focus() = transitionTo focused (usePhase.ts line 164). -/
def focusM (d : Nat) (m : PhaseMachine) : PhaseMachine := transitionTo d .focused m

/-- Wrapper blur() = transitionTo surfaced (usePhase.ts line 165). -/
def blurM (d : Nat) (m : PhaseMachine) : PhaseMachine := transitionTo d .surfaced m

/-- Wrapper hibernate() = transitionTo dormant (usePhase.ts line 166). -/
def hibernateM (d : Nat) (m : PhaseMachine) : PhaseMachine := transitionTo d .dormant m


/-- Per-component state stored by the orchestrator and computed by usePhase
(types.ts, AdaptiveComponentState). transitionTimestamp carries the
Date.now() value supplied at each step. -/
structure AdaptiveComponentState where
  phase : Phase
  opacity : ℚ
  relevanceScore : ℚ
  lastTransition : Option PhaseTransition
  transitionTimestamp : Nat
deriving DecidableEq, Repr

/-- The hook state object computed on each render (usePhase.ts lines 169-175). -/
def computedState (m : PhaseMachine) (now : Nat) : AdaptiveComponentState :=
  { phase := m.phase
    opacity := getPhaseOpacity m.phase
    relevanceScore := phaseRelevance m.phase
    lastTransition := m.lastTransition
    transitionTimestamp := now }

/-- User roles (types.ts, UserRole). -/
inductive UserRole where
  | analyst
  | manager
  | compliance
  | admin
  | viewer
deriving DecidableEq, Repr

/-- Urgency levels (types.ts, Urgency). -/
inductive Urgency where
  | low
  | normal
  | high
  | critical
deriving DecidableEq, Repr

/-- Device classes (types.ts, Device). -/
inductive Device where
  | desktop
  | tablet
  | mobile
  | voice
  | ar
deriving DecidableEq, Repr

/-- Interaction event kinds (types.ts, InteractionEvent type field). -/
inductive InteractionType where
  | click
  | hover
  | focus
  | input
  | gesture
  | voice
deriving DecidableEq, Repr

/-- A session-history interaction event (types.ts, InteractionEvent);
the unknown-typed data payload is carried as an optional string. -/
structure InteractionEvent where
  timestamp : Nat
  type : InteractionType
  componentId : Option String
  data : Option String
deriving DecidableEq, Repr

/-- Session context (types.ts, UserContext); Record-typed preferences are
carried as a key-value list with string payloads. -/
structure UserContext where
  userId : String
  role : UserRole
  urgency : Urgency
  device : Device
  forensicMode : Bool
  preferences : List (String × String)
  sessionHistory : List InteractionEvent
deriving DecidableEq, Repr

/-- A Partial UserContext as used by setContext: each field either absent
(none) or supplying a new value. -/
structure UserContextPatch where
  userId : Option String := none
  role : Option UserRole := none
  urgency : Option Urgency := none
  device : Option Device := none
  forensicMode : Option Bool := none
  preferences : Option (List (String × String)) := none
  sessionHistory : Option (List InteractionEvent) := none
deriving DecidableEq, Repr

/-- The JavaScript spread merge of a context with a Partial update
(OrchestratorContext.tsx line 107): keys present in the update win,
absent keys keep the old value. -/
def mergeContext (c : UserContext) (p : UserContextPatch) : UserContext :=
  { userId := p.userId.getD c.userId
    role := p.role.getD c.role
    urgency := p.urgency.getD c.urgency
    device := p.device.getD c.device
    forensicMode := p.forensicMode.getD c.forensicMode
    preferences := p.preferences.getD c.preferences
    sessionHistory := p.sessionHistory.getD c.sessionHistory }

/-- System status values (types.ts, SystemStatus). -/
inductive SystemStatus where
  | idle
  | listening
  | thinking
  | processing
  | success
  | warning
  | error
deriving DecidableEq, Repr

/-- Status indicator state (types.ts, StatusState). -/
structure StatusState where
  status : SystemStatus
  message : Option String := none
  progress : Option Nat := none
  step : Option Nat := none
  totalSteps : Option Nat := none
deriving DecidableEq, Repr

/-- Condition rule types (types.ts, ConditionType). -/
inductive ConditionType where
  | context
  | data
  | intent
  | time
  | confidence
  | user
  | system
deriving DecidableEq, Repr

/-- Condition operators (types.ts, ConditionOperator). -/
inductive ConditionOperator where
  | equals
  | notEquals
  | contains
  | greaterThan
  | lessThan
  | exists
  | notExists
  | changed
  | matches
deriving DecidableEq, Repr

/-- A declarative visibility condition (types.ts, Condition); the
unknown-typed value is carried as a string. -/
structure Condition where
  type : ConditionType
  operator : ConditionOperator
  field : String
  value : String
  weight : Option ℚ := none
deriving DecidableEq, Repr

/-- Component registration config (types.ts, AdaptiveComponentConfig). -/
structure AdaptiveComponentConfig where
  id : String
  displayName : String
  category : String
  description : Option String := none
  surfaceWhen : Option (List Condition) := none
  dissolveWhen : Option (List Condition) := none
  forceShowWhen : Option (List Condition) := none
  priority : Option Nat := none
  dataSubscriptions : Option (List String) := none
deriving DecidableEq, Repr

/-- Forensic event types (types.ts, ForensicEvent eventType field). -/
inductive ForensicEventType where
  | phase_transition
  | user_interaction
  | data_change
  | ai_decision
  | system_event
deriving DecidableEq, Repr

/-- The details records the orchestrator actions actually log
(OrchestratorContext.tsx lines 178-228): phase transitions carry the
target phase, an optional reason (surface) and an optional from-phase
(blur logs from focused); context updates carry the Partial update;
forensic-mode toggles carry the flag. -/
inductive ForensicDetails where
  | phaseChange (phase : Phase) (reason : Option String) (fromPhase : Option Phase)
  | contextUpdate (updates : UserContextPatch)
  | forensicModeSet (enabled : Bool)
deriving DecidableEq, Repr

/-- A forensic audit event (types.ts, ForensicEvent); the random UUID and
Date.now() timestamp are supplied as parameters at each logging step. -/
structure ForensicEvent where
  id : String
  timestamp : Nat
  eventType : ForensicEventType
  componentId : Option String
  details : ForensicDetails
  auditHash : Option String := none
deriving DecidableEq, Repr

/-- The components map of the orchestrator, modelling the JavaScript Map
from component id to AdaptiveComponentState (types.ts, OrchestratorState). -/
abbrev ComponentMap := List (String × AdaptiveComponentState)

/-- Map.get: the value stored at a key, if any. -/
def mapGet : ComponentMap → String → Option AdaptiveComponentState
  | [], _ => none
  | e :: rest, k => if e.1 = k then some e.2 else mapGet rest k

/-- Map.set: replace the entry at the key, or append a new one (JavaScript
Map keys are unique, so replacing the first hit is exact). -/
def mapSet : ComponentMap → String → AdaptiveComponentState → ComponentMap
  | [], k, v => [(k, v)]
  | e :: rest, k, v => if e.1 = k then (k, v) :: rest else e :: mapSet rest k v

/-- Map.delete: remove the entry at the key, no-op if absent. -/
def mapDelete : ComponentMap → String → ComponentMap
  | [], _ => []
  | e :: rest, k => if e.1 = k then rest else e :: mapDelete rest k

/-- Orchestrator state (types.ts, OrchestratorState). -/
structure OrchestratorState where
  components : ComponentMap
  context : UserContext
  systemStatus : StatusState
  forensicMode : Bool
deriving DecidableEq, Repr

/-- Default session context (OrchestratorContext.tsx, defaultUserContext). -/
def defaultUserContext : UserContext :=
  { userId := "demo-user"
    role := .analyst
    urgency := .normal
    device := .desktop
    forensicMode := false
    preferences := []
    sessionHistory := [] }

/-- Default status (OrchestratorContext.tsx, defaultStatus). -/
def defaultStatus : StatusState :=
  { status := .idle, message := some "Ready" }

/-- Default orchestrator state (OrchestratorContext.tsx, defaultState). -/
def defaultState : OrchestratorState :=
  { components := []
    context := defaultUserContext
    systemStatus := defaultStatus
    forensicMode := false }

/-- Reducer actions (OrchestratorContext.tsx, type OrchestratorAction). -/
inductive OrchestratorAction where
  | registerComponent (config : AdaptiveComponentConfig)
  | unregisterComponent (componentId : String)
  | setPhase (componentId : String) (phase : Phase) (reason : Option String)
  | setContext (updates : UserContextPatch)
  | setForensicMode (enabled : Bool)
  | setStatus (status : StatusState)
  | evaluateAll
deriving DecidableEq, Repr

/-- The component entry created at registration (OrchestratorContext.tsx
lines 74-80): phase dormant, opacity 0, relevance 0, no last transition. -/
def initialComponentState (now : Nat) : AdaptiveComponentState :=
  { phase := .dormant
    opacity := 0
    relevanceScore := 0
    lastTransition := none
    transitionTimestamp := now }

/-- The orchestrator reducer (OrchestratorContext.tsx lines 67-132).
now stands for the Date.now() value at dispatch time. SET_PHASE on an
absent id returns the state unchanged (line 93); on a present id it
spreads the old component state, updating only phase and
transitionTimestamp (lines 96-100). EVALUATE_ALL is a no-op (line 126). -/
def orchestratorReducer (s : OrchestratorState) (a : OrchestratorAction) (now : Nat) :
    OrchestratorState :=
  match a with
  | .registerComponent config =>
    { s with components := mapSet s.components config.id (initialComponentState now) }
  | .unregisterComponent componentId =>
    { s with components := mapDelete s.components componentId }
  | .setPhase componentId phase _ =>
    match mapGet s.components componentId with
    | none => s
    | some cs =>
      let cs2 : AdaptiveComponentState := { cs with phase := phase, transitionTimestamp := now }
      { s with components := mapSet s.components componentId cs2 }
  | .setContext updates =>
    { s with context := mergeContext s.context updates }
  | .setForensicMode enabled =>
    { s with forensicMode := enabled, context := { s.context with forensicMode := enabled } }
  | .setStatus status =>
    { s with systemStatus := status }
  | .evaluateAll => s

/-- Reducer state plus the forensic event array that logForensicEvent
pushes into (OrchestratorContext.tsx lines 164-174). -/
structure RegistryWorld where
  state : OrchestratorState
  forensicEvents : List ForensicEvent
deriving DecidableEq, Repr

/-- logForensicEvent (OrchestratorContext.tsx lines 167-174): fills in the
random UUID and Date.now() timestamp, here supplied as parameters. -/
def mkEvent (fid : String) (now : Nat) (ty : ForensicEventType) (cid : Option String)
    (d : ForensicDetails) : ForensicEvent :=
  { id := fid, timestamp := now, eventType := ty, componentId := cid, details := d }

/-- The public registry actions (OrchestratorContext.tsx, OrchestratorActions). -/
inductive RegAction where
  | register (config : AdaptiveComponentConfig)
  | unregister (componentId : String)
  | surface (componentId : String) (reason : Option String)
  | dissolve (componentId : String)
  | focus (componentId : String)
  | blur (componentId : String)
  | setContext (updates : UserContextPatch)
  | setForensicMode (enabled : Bool)
  | setStatus (status : StatusState)
  | evaluateAll
deriving DecidableEq, Repr

/-- One registry action as wired in the provider (OrchestratorContext.tsx
lines 177-245): a dispatch to the reducer, plus for surface, dissolve,
focus, blur, setContext and setForensicMode one logForensicEvent push with
the details each action builds; registerComponent, unregisterComponent,
setStatus and evaluateAll dispatch without logging. fid is the fresh
UUID and now the Date.now() value of this step. -/
def stepWorld (w : RegistryWorld) (a : RegAction) (fid : String) (now : Nat) : RegistryWorld :=
  match a with
  | .register config =>
    { w with state := orchestratorReducer w.state (.registerComponent config) now }
  | .unregister componentId =>
    { w with state := orchestratorReducer w.state (.unregisterComponent componentId) now }
  | .surface componentId reason =>
    { state := orchestratorReducer w.state (.setPhase componentId .surfaced reason) now
      forensicEvents := w.forensicEvents ++
        [mkEvent fid now .phase_transition (some componentId) (.phaseChange .surfaced reason none)] }
  | .dissolve componentId =>
    { state := orchestratorReducer w.state (.setPhase componentId .dissolving none) now
      forensicEvents := w.forensicEvents ++
        [mkEvent fid now .phase_transition (some componentId) (.phaseChange .dissolving none none)] }
  | .focus componentId =>
    { state := orchestratorReducer w.state (.setPhase componentId .focused none) now
      forensicEvents := w.forensicEvents ++
        [mkEvent fid now .phase_transition (some componentId) (.phaseChange .focused none none)] }
  | .blur componentId =>
    { state := orchestratorReducer w.state (.setPhase componentId .surfaced none) now
      forensicEvents := w.forensicEvents ++
        [mkEvent fid now .phase_transition (some componentId)
          (.phaseChange .surfaced none (some .focused))] }
  | .setContext updates =>
    { state := orchestratorReducer w.state (.setContext updates) now
      forensicEvents := w.forensicEvents ++
        [mkEvent fid now .system_event none (.contextUpdate updates)] }
  | .setForensicMode enabled =>
    { state := orchestratorReducer w.state (.setForensicMode enabled) now
      forensicEvents := w.forensicEvents ++
        [mkEvent fid now .system_event none (.forensicModeSet enabled)] }
  | .setStatus status =>
    { w with state := orchestratorReducer w.state (.setStatus status) now }
  | .evaluateAll =>
    { w with state := orchestratorReducer w.state .evaluateAll now }

/-- Running a sequence of registry actions, each with its fresh event id
and Date.now() value. -/
def runWorld (w : RegistryWorld) : List (RegAction × String × Nat) → RegistryWorld
  | [] => w
  | (a, fid, now) :: rest => runWorld (stepWorld w a fid now) rest

/-- The world the OrchestratorProvider starts from (OrchestratorContext.tsx
lines 155-165): the default state with initialContext spread into the
default context, and an empty forensic event array. -/
def initWorld (initialContext : UserContextPatch) : RegistryWorld :=
  { state := { defaultState with context := mergeContext defaultUserContext initialContext }
    forensicEvents := [] }

/-- The empty Partial context update. -/
def emptyPatch : UserContextPatch := {}

/-- The kinds of timers the usePhase hook schedules: the outer auto-surface
timer (usePhase.ts line 102), the nested warming-to-surfaced timer it
creates when it fires (line 104), and the auto-advance timers stored in
transitionTimeoutRef by transitionTo (lines 134 and 153). -/
inductive TimerKind where
  | autoOuter
  | autoInner
  | advance (target : Phase)
deriving DecidableEq, Repr

/-- The usePhase hook together with its live timers, identified by
allocation order. transitionRef models transitionTimeoutRef.current;
autoOuterRef models the timer id captured by the auto-surface effect
cleanup (usePhase.ts line 106). The nested timer created at line 104 is
stored in neither, exactly as in the source. -/
structure HookSys where
  phase : Phase
  timers : List (Nat × TimerKind)
  transitionRef : Option Nat
  autoOuterRef : Option Nat
  nextId : Nat
deriving DecidableEq, Repr

/-- A freshly mounted hook (usePhase.ts lines 85-88). -/
def initialHook (initialPhase : Phase) : HookSys :=
  { phase := initialPhase, timers := [], transitionRef := none, autoOuterRef := none, nextId := 0 }

/-- The auto-surface mount effect (usePhase.ts lines 100-108): schedules the
outer timer; its id is held by the effect cleanup. -/
def mountAutoSurface (s : HookSys) : HookSys :=
  { s with timers := s.timers ++ [(s.nextId, .autoOuter)]
           autoOuterRef := some s.nextId
           nextId := s.nextId + 1 }

/-- Remove a timer id from the live-timer list. -/
def removeTimer (l : List (Nat × TimerKind)) (tid : Nat) : List (Nat × TimerKind) :=
  l.filter (fun t => decide (t.1 ≠ tid))

/-- Firing a live timer: the outer auto-surface callback sets phase warming
and schedules the nested surfaced hop, recording its id in no ref
(usePhase.ts lines 102-105); the nested callback and the transitionTo
timers only set the phase. Firing an id that is not live is a no-op. -/
def fireTimer (s : HookSys) (tid : Nat) : HookSys :=
  match s.timers.find? (fun t => decide (t.1 = tid)) with
  | none => s
  | some (_, k) =>
    let s1 := { s with timers := removeTimer s.timers tid }
    match k with
    | .autoOuter =>
      { s1 with phase := .warming
                timers := s1.timers ++ [(s1.nextId, .autoInner)]
                nextId := s1.nextId + 1 }
    | .autoInner => { s1 with phase := .surfaced }
    | .advance t => { s1 with phase := t }

/-- Unmount teardown: the cleanup of the unmount effect clears the timer in
transitionTimeoutRef (usePhase.ts lines 91-97) and the cleanup of the
auto-surface effect clears the outer timer it scheduled (line 106). Only
timers whose ids those two cleanups hold are cancelled. -/
def unmountHook (s : HookSys) : HookSys :=
  let keep := fun (t : Nat × TimerKind) =>
    decide (some t.1 ≠ s.transitionRef) && decide (some t.1 ≠ s.autoOuterRef)
  { s with timers := s.timers.filter keep }

/-- A concrete registration config for scenario runs. -/
def cardConfig : AdaptiveComponentConfig :=
  { id := "card-1", displayName := "Card", category := "demo" }

/-- Register card-1, then the registry action surface on it. -/
def c1World : RegistryWorld :=
  runWorld (initWorld emptyPatch)
    [(.register cardConfig, "e1", 1), (.surface "card-1" none, "e2", 2)]

/-- The component entry c1World stores for card-1. -/
def c1Entry : AdaptiveComponentState :=
  { phase := .surfaced, opacity := 0, relevanceScore := 0
    lastTransition := none, transitionTimestamp := 2 }

/-- Register card-1, surface it, then the registry action focus on it. -/
def c2World : RegistryWorld :=
  runWorld (initWorld emptyPatch)
    [(.register cardConfig, "e1", 1), (.surface "card-1" none, "e2", 2),
     (.focus "card-1", "e3", 3)]

/-- The component entry c2World stores for card-1. -/
def c2Entry : AdaptiveComponentState :=
  { phase := .focused, opacity := 0, relevanceScore := 0
    lastTransition := none, transitionTimestamp := 3 }

/-- A freshly registered phase machine: phase dormant, no last transition,
nothing scheduled (usePhase.ts lines 85-88 with the dormant default). -/
def freshMachine : PhaseMachine := ⟨.dormant, none, none⟩

/-- The round-trip request sequence of the spec, waiting for each scheduled
intermediate hop: surface, settle the warming hop, focus, blur, dissolve,
hibernate, settle the dissolving hold. -/
def roundTrip (d : Nat) : PhaseMachine :=
  settle (hibernateM d (dissolveM d (blurM d (focusM d (settle (surfaceM d freshMachine))))))

/-- The failing teardown run for the auto-surface path: mount with
autoSurface enabled, let the outer timer fire (phase warming, nested timer
scheduled), then unmount before the nested timer fires. -/
def autoSurfaceTeardownRun : HookSys :=
  unmountHook (fireTimer (mountAutoSurface (initialHook .dormant)) 0)


/-- The value found at a key is an entry of the map. -/
theorem mapGet_mem {k : String} {v : AdaptiveComponentState} :
    ∀ {m : ComponentMap}, mapGet m k = some v → (k, v) ∈ m := by
  intro m
  induction m with
  | nil => intro h; simp [mapGet] at h
  | cons e rest ih =>
    intro h
    by_cases hk : e.1 = k
    · simp only [mapGet, if_pos hk, Option.some.injEq] at h
      have he : e = (k, v) := by
        cases e
        simp only at hk h
        simp [hk, h]
      rw [he]
      exact List.mem_cons_self _ _
    · simp only [mapGet, if_neg hk] at h
      exact List.mem_cons_of_mem _ (ih h)

/-- Every entry of mapSet m k v is either the new entry or an old one. -/
theorem mem_mapSet {k : String} {v : AdaptiveComponentState}
    {e : String × AdaptiveComponentState} :
    ∀ {m : ComponentMap}, e ∈ mapSet m k v → e = (k, v) ∨ e ∈ m := by
  intro m
  induction m with
  | nil =>
    intro h
    simp [mapSet] at h
    exact Or.inl h
  | cons hd rest ih =>
    intro h
    by_cases hk : hd.1 = k
    · simp only [mapSet, if_pos hk] at h
      rcases List.mem_cons.mp h with h1 | h1
      · exact Or.inl h1
      · exact Or.inr (List.mem_cons_of_mem _ h1)
    · simp only [mapSet, if_neg hk] at h
      rcases List.mem_cons.mp h with h1 | h1
      · exact Or.inr (h1 ▸ List.mem_cons_self _ _)
      · rcases ih h1 with h2 | h2
        · exact Or.inl h2
        · exact Or.inr (List.mem_cons_of_mem _ h2)

/-- Every entry of mapDelete m k is an entry of m. -/
theorem mem_mapDelete {k : String} {e : String × AdaptiveComponentState} :
    ∀ {m : ComponentMap}, e ∈ mapDelete m k → e ∈ m := by
  intro m
  induction m with
  | nil => intro h; simp [mapDelete] at h
  | cons hd rest ih =>
    intro h
    by_cases hk : hd.1 = k
    · simp only [mapDelete, if_pos hk] at h
      exact List.mem_cons_of_mem _ h
    · simp only [mapDelete, if_neg hk] at h
      rcases List.mem_cons.mp h with h1 | h1
      · exact h1 ▸ List.mem_cons_self _ _
      · exact List.mem_cons_of_mem _ (ih h1)

/-- The invariant every stored component entry keeps in every reachable
registry state: the opacity, relevance and last-transition fields hold the
values written at registration; no reducer action ever rewrites them. -/
def entryOk (e : String × AdaptiveComponentState) : Prop :=
  e.2.opacity = 0 ∧ e.2.relevanceScore = 0 ∧ e.2.lastTransition = none

/-- One reducer dispatch preserves the registration-field invariant. -/
theorem reducer_entryOk {s : OrchestratorState} {a : OrchestratorAction} {now : Nat}
    (hs : ∀ e ∈ s.components, entryOk e) :
    ∀ e ∈ (orchestratorReducer s a now).components, entryOk e := by
  intro e he
  cases a with
  | registerComponent config =>
    simp only [orchestratorReducer] at he
    rcases mem_mapSet he with h | h
    · subst h
      exact ⟨rfl, rfl, rfl⟩
    · exact hs _ h
  | unregisterComponent componentId =>
    simp only [orchestratorReducer] at he
    exact hs _ (mem_mapDelete he)
  | setPhase componentId phase reason =>
    rcases hget : mapGet s.components componentId with _ | cs
    · simp only [orchestratorReducer, hget] at he
      exact hs _ he
    · simp only [orchestratorReducer, hget] at he
      rcases mem_mapSet he with h | h
      · subst h
        have hcs := hs _ (mapGet_mem hget)
        exact ⟨hcs.1, hcs.2.1, hcs.2.2⟩
      · exact hs _ h
  | setContext updates => exact hs _ he
  | setForensicMode enabled => exact hs _ he
  | setStatus status => exact hs _ he
  | evaluateAll => exact hs _ he

/-- One registry action preserves the registration-field invariant. -/
theorem stepWorld_entryOk {w : RegistryWorld} {a : RegAction} {fid : String} {now : Nat}
    (hs : ∀ e ∈ w.state.components, entryOk e) :
    ∀ e ∈ (stepWorld w a fid now).state.components, entryOk e := by
  cases a <;> exact reducer_entryOk hs

/-- Every state reachable by a sequence of registry actions keeps the
registration-field invariant. -/
theorem runWorld_entryOk :
    ∀ (acts : List (RegAction × String × Nat)) (w : RegistryWorld),
      (∀ e ∈ w.state.components, entryOk e) →
      ∀ e ∈ (runWorld w acts).state.components, entryOk e := by
  intro acts
  induction acts with
  | nil => intro w hs; exact hs
  | cons x rest ih =>
    intro w hs
    exact ih _ (stepWorld_entryOk hs)

/-- Each registry action only ever appends to the forensic event array. -/
theorem stepWorld_events_append (w : RegistryWorld) (a : RegAction) (fid : String) (now : Nat) :
    ∃ t, (stepWorld w a fid now).forensicEvents = w.forensicEvents ++ t := by
  cases a <;> first
    | exact ⟨[], (List.append_nil _).symm⟩
    | exact ⟨_, rfl⟩

/-- A whole action sequence only ever appends to the forensic event array. -/
theorem runWorld_events_append :
    ∀ (acts : List (RegAction × String × Nat)) (w : RegistryWorld),
      ∃ t, (runWorld w acts).forensicEvents = w.forensicEvents ++ t := by
  intro acts
  induction acts with
  | nil => intro w; exact ⟨[], (List.append_nil _).symm⟩
  | cons x rest ih =>
    intro w
    obtain ⟨t1, h1⟩ := stepWorld_events_append w x.1 x.2.1 x.2.2
    obtain ⟨t2, h2⟩ := ih (stepWorld w x.1 x.2.1 x.2.2)
    refine ⟨t1 ++ t2, ?_⟩
    calc (runWorld w (x :: rest)).forensicEvents
        = (runWorld (stepWorld w x.1 x.2.1 x.2.2) rest).forensicEvents := by
          cases x with
          | mk a y => cases y with
            | mk fid now => rfl
      _ = (stepWorld w x.1 x.2.1 x.2.2).forensicEvents ++ t2 := h2
      _ = (w.forensicEvents ++ t1) ++ t2 := by rw [h1]
      _ = w.forensicEvents ++ (t1 ++ t2) := List.append_assoc _ _ _

/-- Claim C1, counterexample: after registering card-1 and issuing the
registry action surface on it, the stored entry has phase surfaced but
opacity 0, while getPhaseOpacity surfaced is 1 — the stored opacity field
does not equal the pure derivation of the stored phase. -/
theorem claim1_counterexample :
    mapGet c1World.state.components "card-1" = some c1Entry ∧
    c1Entry.phase = .surfaced ∧
    c1Entry.opacity ≠ getPhaseOpacity c1Entry.phase := by
  decide

/-- Claim C1 as amended: in every reachable state of the orchestrator
registry, every stored component entry has opacity 0 — the value written
by REGISTER_COMPONENT — because SET_PHASE updates only phase and
transitionTimestamp and never recomputes opacity; the stored opacity
therefore agrees with getPhaseOpacity of the stored phase only while that
phase has opacity 0. -/
theorem claim1_amended (p : UserContextPatch) (acts : List (RegAction × String × Nat))
    (e : String × AdaptiveComponentState)
    (he : e ∈ (runWorld (initWorld p) acts).state.components) :
    e.2.opacity = 0 := by
  have hinit : ∀ e2 ∈ (initWorld p).state.components, entryOk e2 := by
    intro e2 he2
    simp [initWorld, defaultState] at he2
  exact (runWorld_entryOk acts (initWorld p) hinit e he).1

/-- Claim C1 witness: the amended invariant evaluated on the concrete
register-then-surface run. -/
theorem claim1_witness : c1Entry.opacity = 0 :=
  claim1_amended emptyPatch
    [(.register cardConfig, "e1", 1), (.surface "card-1" none, "e2", 2)]
    ("card-1", c1Entry) (by decide)

/-- Claim C2, counterexample: after register, surface and focus on card-1,
the registry stores phase focused but relevanceScore 0, not 1 — SET_PHASE
never recomputes the stored relevance. -/
theorem claim2_counterexample :
    mapGet c2World.state.components "card-1" = some c2Entry ∧
    c2Entry.phase = .focused ∧
    c2Entry.relevanceScore ≠ 1 := by
  decide

/-- Claim C2 as amended: the relevance derivation focused gives 1, surfaced
gives 0.8, otherwise 0 lives in the usePhase hook state, not in the
registry: on the phase state machine, focus() from surfaced yields a
computed relevanceScore of 1 and the subsequent blur() yields 0.8, while
the registry entry created by REGISTER_COMPONENT keeps relevanceScore 0 in
every reachable registry state, whatever SET_PHASE actions run. -/
theorem claim2_amended (d now : Nat) (m : PhaseMachine) (h : m.phase = .surfaced) :
    (computedState (focusM d m) now).relevanceScore = 1 ∧
    (computedState (blurM d (focusM d m)) now).relevanceScore = 8/10 ∧
    ∀ (p : UserContextPatch) (acts : List (RegAction × String × Nat))
      (e : String × AdaptiveComponentState),
      e ∈ (runWorld (initWorld p) acts).state.components → e.2.relevanceScore = 0 := by
  obtain ⟨ph, lt, pd⟩ := m
  simp only at h
  subst h
  refine ⟨rfl, rfl, ?_⟩
  intro p acts e he
  have hinit : ∀ e2 ∈ (initWorld p).state.components, entryOk e2 := by
    intro e2 he2
    simp [initWorld, defaultState] at he2
  exact (runWorld_entryOk acts (initWorld p) hinit e he).2.1

/-- Claim C2 witness: the amended statement at a concrete surfaced machine. -/
theorem claim2_witness :
    (computedState (focusM 300 ⟨.surfaced, none, none⟩) 10).relevanceScore = 1 ∧
    (computedState (blurM 300 (focusM 300 ⟨.surfaced, none, none⟩)) 10).relevanceScore = 8/10 ∧
    ∀ (p : UserContextPatch) (acts : List (RegAction × String × Nat))
      (e : String × AdaptiveComponentState),
      e ∈ (runWorld (initWorld p) acts).state.components → e.2.relevanceScore = 0 :=
  claim2_amended 300 10 ⟨.surfaced, none, none⟩ rfl

/-- Claim C3: from dormant or dissolving, transitionTo surfaced immediately
sets warming with lastTransition surface and schedules the automatic
advance to surfaced at half the configured duration; firing that timer
settles the machine at surfaced; the duration enum maps fast, normal,
slow, very-slow to 150, 300, 500 and 800 milliseconds. -/
theorem claim3_surface_through_warming (d : AnimationDuration) (m : PhaseMachine)
    (h : m.phase = .dormant ∨ m.phase = .dissolving) :
    transitionTo (PHASE_DURATION_MS d) .surfaced m =
      ⟨.warming, some .surface, some (PHASE_DURATION_MS d / 2, .surfaced)⟩ ∧
    settle (transitionTo (PHASE_DURATION_MS d) .surfaced m) =
      ⟨.surfaced, some .surface, none⟩ ∧
    PHASE_DURATION_MS .fast = 150 ∧ PHASE_DURATION_MS .normal = 300 ∧
    PHASE_DURATION_MS .slow = 500 ∧ PHASE_DURATION_MS .verySlow = 800 := by
  obtain ⟨ph, lt, pd⟩ := m
  simp only at h
  rcases h with rfl | rfl <;>
    exact ⟨rfl, rfl, by decide, by decide, by decide, by decide⟩

/-- Claim C3 witness: the surface transition from dormant at normal speed,
with the 150 millisecond half-duration hop. -/
theorem claim3_witness :
    transitionTo (PHASE_DURATION_MS .normal) .surfaced ⟨.dormant, none, none⟩ =
      ⟨.warming, some .surface, some (PHASE_DURATION_MS .normal / 2, .surfaced)⟩ ∧
    settle (transitionTo (PHASE_DURATION_MS .normal) .surfaced ⟨.dormant, none, none⟩) =
      ⟨.surfaced, some .surface, none⟩ ∧
    PHASE_DURATION_MS .fast = 150 ∧ PHASE_DURATION_MS .normal = 300 ∧
    PHASE_DURATION_MS .slow = 500 ∧ PHASE_DURATION_MS .verySlow = 800 :=
  claim3_surface_through_warming .normal ⟨.dormant, none, none⟩ (Or.inl rfl)

/-- Claim C4: surface() then dissolve() before the warming hop fires leaves
the machine settled at dissolving with nothing scheduled — the delayed
advance to surfaced never fires — and in general the pending timer left by
a transitionTo call depends only on the requested target and the current
phase, never on any previously scheduled auto-advance: every call cancels
the old timer before scheduling its own. -/
theorem claim4_last_request_wins (d : Nat) (target : Phase) (m m2 : PhaseMachine)
    (h : m.phase = m2.phase) :
    (dissolveM d (surfaceM d m)).phase = .dissolving ∧
    (dissolveM d (surfaceM d m)).pending = none ∧
    settle (dissolveM d (surfaceM d m)) = dissolveM d (surfaceM d m) ∧
    (transitionTo d target m).pending = (transitionTo d target m2).pending := by
  obtain ⟨ph, lt, pd⟩ := m
  obtain ⟨ph2, lt2, pd2⟩ := m2
  simp only at h
  subst h
  refine ⟨?_, ?_, ?_, ?_⟩ <;> cases target <;> cases ph <;> rfl

/-- Claim C4 witness: the cancellation race from dormant at normal speed,
with a stale scheduled advance on one of the two machines. -/
theorem claim4_witness :
    (dissolveM 300 (surfaceM 300 ⟨.dormant, none, none⟩)).phase = .dissolving ∧
    (dissolveM 300 (surfaceM 300 ⟨.dormant, none, none⟩)).pending = none ∧
    settle (dissolveM 300 (surfaceM 300 ⟨.dormant, none, none⟩)) =
      dissolveM 300 (surfaceM 300 ⟨.dormant, none, none⟩) ∧
    (transitionTo 300 .surfaced ⟨.warming, some .surface, some (150, .surfaced)⟩).pending =
      (transitionTo 300 .surfaced ⟨.warming, none, none⟩).pending :=
  claim4_last_request_wins 300 .surfaced ⟨.warming, some .surface, some (150, .surfaced)⟩
    ⟨.warming, none, none⟩ rfl

/-- Claim C5: on an id absent from the components map, each of the registry
actions surface, dissolve, focus and blur is a total function that leaves
both the components map and the session context unchanged (the SET_PHASE
reducer returns the state untouched when the lookup misses; no code path
throws — every action is a total function in this embedding). -/
theorem claim5_unknown_id_noop (w : RegistryWorld) (cid : String) (reason : Option String)
    (fid : String) (now : Nat) (h : mapGet w.state.components cid = none) :
    ((stepWorld w (.surface cid reason) fid now).state.components = w.state.components ∧
     (stepWorld w (.surface cid reason) fid now).state.context = w.state.context) ∧
    ((stepWorld w (.dissolve cid) fid now).state.components = w.state.components ∧
     (stepWorld w (.dissolve cid) fid now).state.context = w.state.context) ∧
    ((stepWorld w (.focus cid) fid now).state.components = w.state.components ∧
     (stepWorld w (.focus cid) fid now).state.context = w.state.context) ∧
    ((stepWorld w (.blur cid) fid now).state.components = w.state.components ∧
     (stepWorld w (.blur cid) fid now).state.context = w.state.context) := by
  simp [stepWorld, orchestratorReducer, h]

/-- Claim C5 witness: the four actions on an id never registered in the
initial world. -/
theorem claim5_witness :
    ((stepWorld (initWorld emptyPatch) (.surface "ghost" none) "e1" 1).state.components =
        (initWorld emptyPatch).state.components ∧
     (stepWorld (initWorld emptyPatch) (.surface "ghost" none) "e1" 1).state.context =
        (initWorld emptyPatch).state.context) ∧
    ((stepWorld (initWorld emptyPatch) (.dissolve "ghost") "e1" 1).state.components =
        (initWorld emptyPatch).state.components ∧
     (stepWorld (initWorld emptyPatch) (.dissolve "ghost") "e1" 1).state.context =
        (initWorld emptyPatch).state.context) ∧
    ((stepWorld (initWorld emptyPatch) (.focus "ghost") "e1" 1).state.components =
        (initWorld emptyPatch).state.components ∧
     (stepWorld (initWorld emptyPatch) (.focus "ghost") "e1" 1).state.context =
        (initWorld emptyPatch).state.context) ∧
    ((stepWorld (initWorld emptyPatch) (.blur "ghost") "e1" 1).state.components =
        (initWorld emptyPatch).state.components ∧
     (stepWorld (initWorld emptyPatch) (.blur "ghost") "e1" 1).state.context =
        (initWorld emptyPatch).state.context) :=
  claim5_unknown_id_noop (initWorld emptyPatch) "ghost" none "e1" 1 (by decide)

/-- Claim C6, counterexample: the full request cycle surface, settle, focus,
blur, dissolve, hibernate, settle at normal speed ends at phase dormant but
not at the registration state — lastTransition ends as hibernate where the
fresh machine held none, a residual state difference. -/
theorem claim6_counterexample :
    roundTrip 300 ≠ freshMachine ∧
    (roundTrip 300).phase = .dormant ∧
    (roundTrip 300).lastTransition = some .hibernate ∧
    freshMachine.lastTransition = none := by
  decide

/-- Claim C6 as amended: for every duration, the cycle passes through
warming, surfaced, focused, surfaced, dissolving and the dissolving hold,
and returns the machine to exactly its starting phase dormant with all
phase-derived fields (opacity, relevance) equal to their registration
values and nothing left scheduled; the one residual difference is
lastTransition, which ends as hibernate instead of the initial null. -/
theorem claim6_amended (d : Nat) :
    (surfaceM d freshMachine).phase = .warming ∧
    (settle (surfaceM d freshMachine)).phase = .surfaced ∧
    (focusM d (settle (surfaceM d freshMachine))).phase = .focused ∧
    (blurM d (focusM d (settle (surfaceM d freshMachine)))).phase = .surfaced ∧
    (dissolveM d (blurM d (focusM d (settle (surfaceM d freshMachine))))).phase = .dissolving ∧
    (hibernateM d (dissolveM d (blurM d (focusM d (settle (surfaceM d freshMachine)))))).phase =
      .dissolving ∧
    roundTrip d = ⟨.dormant, some .hibernate, none⟩ ∧
    (roundTrip d).phase = freshMachine.phase ∧
    getPhaseOpacity (roundTrip d).phase = getPhaseOpacity freshMachine.phase ∧
    phaseRelevance (roundTrip d).phase = phaseRelevance freshMachine.phase ∧
    (roundTrip d).pending = none ∧
    (roundTrip d).lastTransition ≠ freshMachine.lastTransition := by
  refine ⟨rfl, rfl, rfl, rfl, rfl, rfl, rfl, rfl, rfl, rfl, rfl, ?_⟩
  simp [roundTrip, freshMachine, surfaceM, focusM, blurM, dissolveM, hibernateM,
    transitionTo, settle]

/-- Claim C7: setContext replaces the session context by the shallow merge
of the old context with the update — every field absent from the update is
preserved — and appends exactly one system_event forensic event whose
details carry the update itself; in particular merging an urgency critical
update into the default analyst, normal-urgency context keeps role analyst
and sets urgency critical. -/
theorem claim7_setContext_merge (w : RegistryWorld) (p : UserContextPatch)
    (fid : String) (now : Nat) :
    (stepWorld w (.setContext p) fid now).state.context = mergeContext w.state.context p ∧
    (p.userId = none →
      (stepWorld w (.setContext p) fid now).state.context.userId = w.state.context.userId) ∧
    (p.role = none →
      (stepWorld w (.setContext p) fid now).state.context.role = w.state.context.role) ∧
    (p.urgency = none →
      (stepWorld w (.setContext p) fid now).state.context.urgency = w.state.context.urgency) ∧
    (p.device = none →
      (stepWorld w (.setContext p) fid now).state.context.device = w.state.context.device) ∧
    (p.forensicMode = none →
      (stepWorld w (.setContext p) fid now).state.context.forensicMode =
        w.state.context.forensicMode) ∧
    (p.preferences = none →
      (stepWorld w (.setContext p) fid now).state.context.preferences =
        w.state.context.preferences) ∧
    (p.sessionHistory = none →
      (stepWorld w (.setContext p) fid now).state.context.sessionHistory =
        w.state.context.sessionHistory) ∧
    (stepWorld w (.setContext p) fid now).forensicEvents =
      w.forensicEvents ++ [mkEvent fid now .system_event none (.contextUpdate p)] ∧
    (mergeContext defaultUserContext { urgency := some .critical }).role = .analyst ∧
    (mergeContext defaultUserContext { urgency := some .critical }).urgency = .critical := by
  refine ⟨rfl, ?_, ?_, ?_, ?_, ?_, ?_, ?_, rfl, by decide, by decide⟩ <;>
    · intro h
      simp [stepWorld, orchestratorReducer, mergeContext, h]

/-- Claim C7 witness: the scenario merge of an urgency critical update into
the default context, with every other field supplied as absent. -/
theorem claim7_witness :
    (stepWorld (initWorld emptyPatch) (.setContext { urgency := some .critical }) "e1" 1).state.context =
      mergeContext (initWorld emptyPatch).state.context { urgency := some .critical } ∧
    (stepWorld (initWorld emptyPatch) (.setContext { urgency := some .critical }) "e1" 1).state.context.role =
      (initWorld emptyPatch).state.context.role ∧
    (stepWorld (initWorld emptyPatch) (.setContext { urgency := some .critical }) "e1" 1).forensicEvents =
      (initWorld emptyPatch).forensicEvents ++
        [mkEvent "e1" 1 .system_event none (.contextUpdate { urgency := some .critical })] ∧
    (mergeContext defaultUserContext { urgency := some .critical }).role = .analyst ∧
    (mergeContext defaultUserContext { urgency := some .critical }).urgency = .critical := by
  have h := claim7_setContext_merge (initWorld emptyPatch) { urgency := some .critical } "e1" 1
  exact ⟨h.1, h.2.2.1 rfl, h.2.2.2.2.2.2.2.2.1, h.2.2.2.2.2.2.2.2.2.1, h.2.2.2.2.2.2.2.2.2.2⟩

/-- Claim C8: across every sequence of registry actions the forensic event
log only grows — the old log is always a prefix of the new one, so its
length is monotonically non-decreasing — with surface, dissolve, focus,
blur, setContext and setForensicMode each appending exactly one event,
while setStatus updates the system status and appends nothing. -/
theorem claim8_forensic_append_only :
    (∀ (w : RegistryWorld) (acts : List (RegAction × String × Nat)),
      ∃ t, (runWorld w acts).forensicEvents = w.forensicEvents ++ t) ∧
    (∀ (w : RegistryWorld) (acts : List (RegAction × String × Nat)),
      w.forensicEvents.length ≤ (runWorld w acts).forensicEvents.length) ∧
    (∀ (w : RegistryWorld) (cid : String) (r : Option String) (fid : String) (now : Nat),
      (stepWorld w (.surface cid r) fid now).forensicEvents.length =
        w.forensicEvents.length + 1) ∧
    (∀ (w : RegistryWorld) (cid fid : String) (now : Nat),
      (stepWorld w (.dissolve cid) fid now).forensicEvents.length =
        w.forensicEvents.length + 1) ∧
    (∀ (w : RegistryWorld) (cid fid : String) (now : Nat),
      (stepWorld w (.focus cid) fid now).forensicEvents.length =
        w.forensicEvents.length + 1) ∧
    (∀ (w : RegistryWorld) (cid fid : String) (now : Nat),
      (stepWorld w (.blur cid) fid now).forensicEvents.length =
        w.forensicEvents.length + 1) ∧
    (∀ (w : RegistryWorld) (p : UserContextPatch) (fid : String) (now : Nat),
      (stepWorld w (.setContext p) fid now).forensicEvents.length =
        w.forensicEvents.length + 1) ∧
    (∀ (w : RegistryWorld) (b : Bool) (fid : String) (now : Nat),
      (stepWorld w (.setForensicMode b) fid now).forensicEvents.length =
        w.forensicEvents.length + 1) ∧
    (∀ (w : RegistryWorld) (st : StatusState) (fid : String) (now : Nat),
      (stepWorld w (.setStatus st) fid now).forensicEvents = w.forensicEvents ∧
      (stepWorld w (.setStatus st) fid now).state.systemStatus = st) := by
  refine ⟨fun w acts => runWorld_events_append acts w, ?_, ?_, ?_, ?_, ?_, ?_, ?_, ?_⟩
  · intro w acts
    obtain ⟨t, ht⟩ := runWorld_events_append acts w
    rw [ht]
    simp
  · intro w cid r fid now; simp [stepWorld]
  · intro w cid fid now; simp [stepWorld]
  · intro w cid fid now; simp [stepWorld]
  · intro w cid fid now; simp [stepWorld]
  · intro w p fid now; simp [stepWorld]
  · intro w b fid now; simp [stepWorld]
  · intro w st fid now; exact ⟨rfl, rfl⟩

/-- Claim C9, evaluated at the failing input: mount with auto-surface
enabled, let the outer delay timer fire — phase warming, the nested
warming-to-surfaced timer scheduled with its id stored in no ref — then
unmount. The teardown cleanups clear only the ids held in
transitionTimeoutRef and by the auto-surface effect, so the nested timer
survives teardown, and firing it still advances the disposed machine to
surfaced. -/
theorem claim9_teardown_leaves_timer :
    autoSurfaceTeardownRun.timers = [(1, .autoInner)] ∧
    autoSurfaceTeardownRun.phase = .warming ∧
    (fireTimer autoSurfaceTeardownRun 1).phase = .surfaced ∧
    (fireTimer autoSurfaceTeardownRun 1).timers = [] := by
  decide

/-- Claim C10: on an id absent from the components map, each of surface,
dissolve, focus and blur leaves the entire orchestrator state unchanged
yet still appends exactly one phase_transition forensic event carrying
that id and the requested target phase — the log push is not guarded by
the existence check that makes the phase update a no-op. -/
theorem claim10_unknown_id_still_logged (w : RegistryWorld) (cid : String) (r : Option String)
    (fid : String) (now : Nat) (h : mapGet w.state.components cid = none) :
    ((stepWorld w (.surface cid r) fid now).state = w.state ∧
     (stepWorld w (.surface cid r) fid now).forensicEvents = w.forensicEvents ++
        [mkEvent fid now .phase_transition (some cid) (.phaseChange .surfaced r none)]) ∧
    ((stepWorld w (.dissolve cid) fid now).state = w.state ∧
     (stepWorld w (.dissolve cid) fid now).forensicEvents = w.forensicEvents ++
        [mkEvent fid now .phase_transition (some cid) (.phaseChange .dissolving none none)]) ∧
    ((stepWorld w (.focus cid) fid now).state = w.state ∧
     (stepWorld w (.focus cid) fid now).forensicEvents = w.forensicEvents ++
        [mkEvent fid now .phase_transition (some cid) (.phaseChange .focused none none)]) ∧
    ((stepWorld w (.blur cid) fid now).state = w.state ∧
     (stepWorld w (.blur cid) fid now).forensicEvents = w.forensicEvents ++
        [mkEvent fid now .phase_transition (some cid)
          (.phaseChange .surfaced none (some .focused))]) := by
  simp [stepWorld, orchestratorReducer, h]

/-- Claim C10 witness: the four actions on a never-registered id in the
initial world each log one phase_transition event while the state stays
put. -/
theorem claim10_witness :
    ((stepWorld (initWorld emptyPatch) (.surface "ghost" none) "e1" 1).state =
        (initWorld emptyPatch).state ∧
     (stepWorld (initWorld emptyPatch) (.surface "ghost" none) "e1" 1).forensicEvents =
        (initWorld emptyPatch).forensicEvents ++
          [mkEvent "e1" 1 .phase_transition (some "ghost") (.phaseChange .surfaced none none)]) ∧
    ((stepWorld (initWorld emptyPatch) (.dissolve "ghost") "e1" 1).state =
        (initWorld emptyPatch).state ∧
     (stepWorld (initWorld emptyPatch) (.dissolve "ghost") "e1" 1).forensicEvents =
        (initWorld emptyPatch).forensicEvents ++
          [mkEvent "e1" 1 .phase_transition (some "ghost") (.phaseChange .dissolving none none)]) ∧
    ((stepWorld (initWorld emptyPatch) (.focus "ghost") "e1" 1).state =
        (initWorld emptyPatch).state ∧
     (stepWorld (initWorld emptyPatch) (.focus "ghost") "e1" 1).forensicEvents =
        (initWorld emptyPatch).forensicEvents ++
          [mkEvent "e1" 1 .phase_transition (some "ghost") (.phaseChange .focused none none)]) ∧
    ((stepWorld (initWorld emptyPatch) (.blur "ghost") "e1" 1).state =
        (initWorld emptyPatch).state ∧
     (stepWorld (initWorld emptyPatch) (.blur "ghost") "e1" 1).forensicEvents =
        (initWorld emptyPatch).forensicEvents ++
          [mkEvent "e1" 1 .phase_transition (some "ghost")
            (.phaseChange .surfaced none (some .focused))]) :=
  claim10_unknown_id_still_logged (initWorld emptyPatch) "ghost" none "e1" 1 (by decide)

end PhasedUI
